import Mathlib

/-!
Verification of the GeoCoding repository (Go) against its specification.

The development shallowly embeds the ingestion pipeline of
`src/cmd/api/main.go` (the directory-capable importer: `parseCSV`,
`insertRecords`, `verifyImport`, `isFileProcessed`, `markFileProcessed`,
and the `main` control flow for `--file` and `--directory` modes) and the
query stack of `src/internal` (repository `SearchLocationsByText` /
`FindNearestLocation`, the two services, the two HTTP handlers).

Machine floating point is modelled by the rationals ℚ; Go's
`strconv.ParseFloat` is modelled on finite decimal literals (optional
sign, digits, optional fraction, optional decimal exponent).  The
PostgreSQL store is modelled as explicit state: the `locations` table as
a list of records, the `processed_files` ledger as a list of
path/count pairs; the failure modes of the store round trips are an
explicit environment (`IngestEnv`).
-/

deriving instance DecidableEq for Except

/-- Digit accumulator for decimal strings: `digitsVal ['4','2'] = 42`. -/
def digitsVal (ds : List Char) : Nat :=
  ds.foldl (fun n c => n * 10 + (c.toNat - 48)) 0

/-- Magnitude at which `strconv.ParseFloat` reports ErrRange: a decimal
whose value reaches 2^1024 - 2^970 in magnitude rounds to infinity under
float64 round-to-nearest-even, Go returns a non-nil error, and the
importer treats it like any other parse failure.  Written as a numeral so
that kernel evaluation stays shallow; the lemma below certifies it. -/
def float64MaxBound : ℚ := 179769313486231580793728971405303415079934132710037826936173778980444968292764750946649017977587207096330286416692887910946555547851940402630657488671505820681908902000708383676273854845817711531764475730270069855571366959622842914819860834936475292719074168444365510704342711559699508093042880177904174497792

lemma float64MaxBound_eq : float64MaxBound = (2 : ℚ) ^ 1024 - 2 ^ 970 := by
  norm_num [float64MaxBound]

/-- Range gate of `strconv.ParseFloat` on a finite decimal value: a value
at or beyond the overflow bound fails with ErrRange; a smaller value is
kept, its rounding to the nearest float64 idealized as the exact
rational. -/
def fitsFloat64 (q : ℚ) : Option ℚ :=
  if float64MaxBound ≤ q ∨ q ≤ -float64MaxBound then none else some q

/-- Exponent tail of a float literal (after `e`/`E`): optional sign and a
nonempty run of digits.  Applied to a mantissa `num / den`. -/
def applyExp (num : Int) (den : Nat) (cs : List Char) : Option ℚ :=
  let (eneg, cs2) : Bool × List Char :=
    match cs with
    | '+' :: t => (false, t)
    | '-' :: t => (true, t)
    | t => (false, t)
  let ds := cs2.takeWhile Char.isDigit
  if ds.isEmpty || ds.length ≠ cs2.length then none
  else if eneg then fitsFloat64 (Rat.divInt num (den * 10 ^ digitsVal ds))
  else fitsFloat64 (Rat.divInt (num * 10 ^ digitsVal ds) den)

/-- Models Go `strconv.ParseFloat` (src/cmd/api/main.go lines 452-460 and
the reverse-geocode handler) on plain decimal literals: optional sign,
integer digits, optional fraction, optional decimal exponent, with the
ErrRange overflow failure of float64 modelled by `fitsFloat64`.
Idealizations: an accepted value is the exact rational rather than its
rounding to the nearest float64; and the inputs ParseFloat additionally
accepts with no rational value or in layouts the claims never exercise -
the non-finite spellings NaN/Inf/Infinity, hexadecimal floats and
underscored literals - are rejected here, so a statement conditional on a
successful `parseFloat`/`parseCSV` run speaks about files written in this
decimal fragment. -/
def parseFloat (s : String) : Option ℚ :=
  let cs0 := s.data
  let (sgn, cs) : Int × List Char :=
    match cs0 with
    | '+' :: t => (1, t)
    | '-' :: t => (-1, t)
    | t => (1, t)
  let ip := cs.takeWhile Char.isDigit
  let r1 := cs.drop ip.length
  match r1 with
  | [] => if ip.isEmpty then none else fitsFloat64 (Rat.divInt (sgn * digitsVal ip) 1)
  | '.' :: r2 =>
    let fp := r2.takeWhile Char.isDigit
    let r3 := r2.drop fp.length
    if ip.isEmpty && fp.isEmpty then none
    else
      let num := sgn * (digitsVal ip * 10 ^ fp.length + digitsVal fp)
      let den : Nat := 10 ^ fp.length
      match r3 with
      | [] => fitsFloat64 (Rat.divInt num (den : Int))
      | c :: r4 => if c = 'e' || c = 'E' then applyExp num den r4 else none
  | c :: r4 =>
    if ip.isEmpty then none
    else if c = 'e' || c = 'E' then applyExp (sgn * digitsVal ip) 1 r4 else none

/-- Go struct `LocationRecord` (src/cmd/api/main.go): the five address
columns plus the parsed coordinates. -/
structure LocationRecord where
  Prefecture : String
  Municipality : String
  Address1 : String
  Address2 : String
  BlockLot : String
  Lat : ℚ
  Lon : ℚ
deriving DecidableEq, Repr

/-- Errors of Go `parseCSV` (src/cmd/api/main.go lines 422-476), with the
data each carries in its message. -/
inductive ParseError where
  | readHeaderFailed
  | invalidRecordLength (n : Nat)
  | invalidLatitude (s : String)
  | invalidLongitude (s : String)
deriving DecidableEq, Repr

/-- One iteration of the row loop of Go `parseCSV`: a row needs at least
11 columns, columns 0-4 are the address fields, column 9 is latitude and
column 10 is longitude. -/
def parseRow (record : List String) : Except ParseError LocationRecord :=
  if record.length < 11 then .error (.invalidRecordLength record.length)
  else
    match parseFloat (record.getD 9 "") with
    | none => .error (.invalidLatitude (record.getD 9 ""))
    | some lat =>
      match parseFloat (record.getD 10 "") with
      | none => .error (.invalidLongitude (record.getD 10 ""))
      | some lon =>
        .ok { Prefecture := record.getD 0 "", Municipality := record.getD 1 "",
              Address1 := record.getD 2 "", Address2 := record.getD 3 "",
              BlockLot := record.getD 4 "", Lat := lat, Lon := lon }

/-- The data-row loop of Go `parseCSV`: fail fast on the first bad row,
otherwise collect the records in order. -/
def parseRows : List (List String) → Except ParseError (List LocationRecord)
  | [] => .ok []
  | row :: rest =>
    match parseRow row with
    | .error e => .error e
    | .ok r =>
      match parseRows rest with
      | .error e => .error e
      | .ok rs => .ok (r :: rs)

/-- Go `parseCSV` (src/cmd/api/main.go lines 422-476) on an already
csv-decoded file, given as its list of rows: reading the header of an
empty file fails, otherwise the first row is discarded and the data rows
are parsed fail-fast. -/
def parseCSV : List (List String) → Except ParseError (List LocationRecord)
  | [] => .error .readHeaderFailed
  | _ :: data => parseRows data

/-- The `processed_files` table (src/cmd/api/main.go lines 502-509):
one entry per file path with its record count. -/
abbrev Ledger := List (String × Nat)

/-- Go `isFileProcessed` (src/cmd/api/main.go lines 567-573):
`SELECT EXISTS(... WHERE file_path = $1)`. -/
def isFileProcessed (ledger : Ledger) (filePath : String) : Bool :=
  ledger.any (fun e => e.1 = filePath)

/-- Go `markFileProcessed` (src/cmd/api/main.go lines 575-580):
`INSERT ... ON CONFLICT (file_path) DO NOTHING`. -/
def markFileProcessed (ledger : Ledger) (filePath : String) (recordCount : Nat) : Ledger :=
  if isFileProcessed ledger filePath then ledger else ledger ++ [(filePath, recordCount)]

/-- Go `insertRecords` (src/cmd/api/main.go lines 515-528): a bulk
`CopyFrom` of the whole batch into the `locations` table. -/
def insertRecords (locations : List LocationRecord) (records : List LocationRecord) :
    List LocationRecord :=
  locations ++ records

/-- The durable state of the store: the `locations` table and the
`processed_files` ledger. -/
structure DirState where
  locations : List LocationRecord
  ledger : Ledger
deriving DecidableEq, Repr

/-- The per-invocation counters of Go `main` in directory mode
(src/cmd/api/main.go lines 330-332): `totalRecords`, `processedFiles`,
`failedFiles`. -/
structure ImportRun where
  totalRecords : Nat
  processedFiles : Nat
  failedFiles : Nat
deriving DecidableEq, Repr

/-- Environment of one run: the contents of each discovered file (already
csv-decoded into rows) and which store round trips fail (the ledger
existence check, the bulk insert, the ledger write). -/
structure IngestEnv where
  fs : String → List (List String)
  checkFails : String → Bool
  insertFails : String → Bool
  markFails : String → Bool

/-- One iteration of the directory loop of Go `main`
(src/cmd/api/main.go lines 373-416): check the ledger (an error of the
check counts the file failed), skip an already processed file, parse,
bulk insert, write the ledger entry (a failed ledger write is only
warned about), then bump the totals. -/
def processFile (env : IngestEnv) (acc : DirState × ImportRun) (filePath : String) :
    DirState × ImportRun :=
  if env.checkFails filePath then
    (acc.1, { acc.2 with failedFiles := acc.2.failedFiles + 1 })
  else if isFileProcessed acc.1.ledger filePath then
    acc
  else
    match parseCSV (env.fs filePath) with
    | .error _ => (acc.1, { acc.2 with failedFiles := acc.2.failedFiles + 1 })
    | .ok records =>
      if env.insertFails filePath then
        (acc.1, { acc.2 with failedFiles := acc.2.failedFiles + 1 })
      else
        ({ locations := insertRecords acc.1.locations records,
           ledger := if env.markFails filePath then acc.1.ledger
                     else markFileProcessed acc.1.ledger filePath records.length },
         { acc.2 with totalRecords := acc.2.totalRecords + records.length,
                      processedFiles := acc.2.processedFiles + 1 })

/-- The directory loop of Go `main` over the discovered files, starting
from zeroed counters. -/
def runDirectory (env : IngestEnv) (st : DirState) (files : List String) :
    DirState × ImportRun :=
  files.foldl (processFile env) (st, ⟨0, 0, 0⟩)

/-- Directory mode of Go `main`: the loop never calls `os.Exit`, so a
completed run always carries exit code 0 (src/cmd/api/main.go lines
361-419). -/
def runDirectoryMode (env : IngestEnv) (st : DirState) (files : List String) :
    (DirState × ImportRun) × Nat :=
  (runDirectory env st files, 0)

/-- Go `verifyImport` (src/cmd/api/main.go lines 530-551) over a reliable
store: fails when the total row count is below the expected count, and
also when the sample-geometry probe (`SELECT ST_AsText(geom) ... LIMIT 1`)
has no row to scan. -/
def verifyImport (locations : List LocationRecord) (expectedCount : Nat) : Bool :=
  if locations.length < expectedCount then false
  else if locations.length = 0 then false
  else true

/-- Single-file mode of Go `main` (src/cmd/api/main.go lines 334-360):
parse (exit 1 on error), bulk insert (exit 1 on error), verify (exit 1 on
error); the ledger is never consulted and never written.  Returns the
resulting store state and the exit code. -/
def runSingleFile (env : IngestEnv) (st : DirState) (filePath : String) : DirState × Nat :=
  match parseCSV (env.fs filePath) with
  | .error _ => (st, 1)
  | .ok records =>
    if env.insertFails filePath then (st, 1)
    else
      let st2 : DirState := { st with locations := insertRecords st.locations records }
      if verifyImport st2.locations records.length then (st2, 0) else (st2, 1)

/-- Go struct `models.Location` (src/internal/models/location.go). -/
structure Location where
  ID : Nat
  Prefecture : String
  Municipality : String
  Address1 : String
  Address2 : String
  BlockLot : String
  Latitude : ℚ
  Longitude : ℚ
deriving DecidableEq, Repr

/-- Errors of the repository layer (src/internal/repository/postgres.go):
the distinguished no-rows message of `FindNearestLocation` versus any
other query failure. -/
inductive RepoError where
  | noLocationFound
  | queryFailed
deriving DecidableEq, Repr

/-- What the store reports for one nearest-point query: no row within the
10 km radius, a failed round trip, or the nearest location. -/
inductive RepoOutcome where
  | noRows
  | storeFailure
  | found (loc : Location)
deriving DecidableEq, Repr

/-- Go `Repository.FindNearestLocation` (src/internal/repository/postgres.go
lines 73-109): a no-rows result and a failed round trip both come back as
an error (only their messages differ); a found row comes back with no
error.  Mirrors the Go `(*models.Location, error)` pair. -/
def FindNearestLocation (outcome : RepoOutcome) : Option Location × Option RepoError :=
  match outcome with
  | .noRows => (none, some .noLocationFound)
  | .storeFailure => (none, some .queryFailed)
  | .found loc => (some loc, none)

/-- Go `Repository.SearchLocationsByText` (src/internal/repository/postgres.go
lines 23-70), modelled by the standard SQL semantics of its query text:
keep the rows matched by the tsquery for the query string, order them by
descending rank, and `LIMIT 10`.  The external ranking engine is the pair
`tsMatch`/`rank`. -/
def SearchLocationsByText (db : List Location) (tsMatch : String → Location → Bool)
    (rank : String → Location → ℚ) (query : String) : List Location :=
  (((db.filter (tsMatch query)).insertionSort
      (fun a b => rank query b ≤ rank query a)).take 10)

/-- Errors of Go `GeoCodeService.Geocode` (src/unnamed/part_001 lines 26-37). -/
inductive GeoSvcError where
  | emptyAddress
  | searchFailed (e : RepoError)
deriving DecidableEq, Repr

/-- Go `GeoCodeService.Geocode` (src/unnamed/part_001 lines 26-37): an
empty address fails before the repository is consulted; otherwise the
repository result is returned, with its error wrapped. -/
def GeoCodeService.geocode (repo : String → Except RepoError (List Location))
    (address : String) : Except GeoSvcError (List Location) :=
  if address = "" then .error .emptyAddress
  else
    match repo address with
    | .error e => .error (.searchFailed e)
    | .ok locations => .ok locations

/-- Errors of Go `ReverseGeoCodeService.ReverseGeocode`
(src/internal/service/reverse_geocode_service.go lines 26-40). -/
inductive ReverseSvcError where
  | invalidLatitude (lat : ℚ)
  | invalidLongitude (lon : ℚ)
  | findFailed (e : RepoError)
deriving DecidableEq, Repr

/-- Go `ReverseGeoCodeService.ReverseGeocode`
(src/internal/service/reverse_geocode_service.go lines 26-40): range
validation on latitude then longitude before the repository is consulted,
then the repository pair is forwarded with its error wrapped.  Mirrors the
Go `(*models.Location, error)` pair. -/
def ReverseGeoCodeService.reverseGeocode
    (repo : ℚ → ℚ → Option Location × Option RepoError) (lat lon : ℚ) :
    Option Location × Option ReverseSvcError :=
  if lat < -90 ∨ lat > 90 then (none, some (.invalidLatitude lat))
  else if lon < -180 ∨ lon > 180 then (none, some (.invalidLongitude lon))
  else
    match repo lat lon with
    | (_, some e) => (none, some (.findFailed e))
    | (loc, none) => (loc, none)

/-- HTTP responses produced by the two handlers (src/internal/handler and
src/unnamed/part_002): status code plus body shape. -/
inductive HttpResponse where
  | badRequest (msg : String)
  | notFound (msg : String)
  | internalError (msg : String)
  | okLocation (loc : Location)
  | okLocations (locs : List Location)
deriving DecidableEq, Repr

/-- Go `GeoCodeHandler.GeoCode` (src/internal/handler/geocode.go): a
missing `q` is a 400; any service error is a 500; otherwise 200 with the
list of locations. -/
def GeoCodeHandler.geoCode (svc : String → Except GeoSvcError (List Location))
    (q : String) : HttpResponse :=
  if q = "" then .badRequest "missing required query parameter q"
  else
    match svc q with
    | .error _ => .internalError "internal server error"
    | .ok locations => .okLocations locations

/-- Go `ReverseGeocodeHandler.ReverseGeocode` (src/unnamed/part_002, the
handler under test in src/internal/service/geocode_service_test.go):
missing or unparseable `lat`/`lon` are 400s; any service error is a 500;
a nil location with no error is a 404; otherwise 200 with the location. -/
def ReverseGeocodeHandler.reverseGeocode
    (svc : ℚ → ℚ → Option Location × Option ReverseSvcError)
    (latStr lonStr : String) : HttpResponse :=
  if latStr = "" ∨ lonStr = "" then
    .badRequest "missing required query parameters lat and lon"
  else
    match parseFloat latStr with
    | none => .badRequest "invalid latitude format"
    | some lat =>
      match parseFloat lonStr with
      | none => .badRequest "invalid longitude format"
      | some lon =>
        match svc lat lon with
        | (_, some _) => .internalError "internal server error"
        | (none, none) => .notFound "no address found near the specified coordinates"
        | (some loc, none) => .okLocation loc

/-- The wired `GET /reverse-geocode` stack of cmd/api/main.go: handler over
service over repository, the store abstracted as the outcome of each
nearest-point query. -/
def reverseGeocodeEndpoint (outcome : ℚ → ℚ → RepoOutcome) (latStr lonStr : String) :
    HttpResponse :=
  ReverseGeocodeHandler.reverseGeocode
    (ReverseGeoCodeService.reverseGeocode (fun lat lon => FindNearestLocation (outcome lat lon)))
    latStr lonStr

/-- The wired `GET /geocode` stack of cmd/api/main.go over a reliable
store holding `db`. -/
def geocodeEndpoint (db : List Location) (tsMatch : String → Location → Bool)
    (rank : String → Location → ℚ) (q : String) : HttpResponse :=
  GeoCodeHandler.geoCode
    (GeoCodeService.geocode (fun address => .ok (SearchLocationsByText db tsMatch rank address)))
    q

/-! ## Concrete fixtures used by the scenario conjuncts and witnesses -/

/-- Eleven-column header row for the concrete scenario files. -/
def csvHeader : List String :=
  ["prefecture", "municipality", "addr1", "addr2", "block", "c5", "c6", "c7", "c8", "lat", "lon"]

/-- The scenario row of the spec, its elided middle columns made explicit
so the row has the 11 columns the parser requires. -/
def tokyoRow : List String :=
  ["東京都", "千代田区", "丸の内", "", "", "", "", "", "", "35.681236", "139.767125"]

def osakaRow : List String :=
  ["大阪府", "大阪市", "梅田", "", "", "", "", "", "", "34.7", "135.5"]

/-- A malformed data row: three columns instead of the required 11. -/
def shortRow : List String := ["東京都", "千代田区", "丸の内"]

/-- A row whose latitude column parses as a decimal number but lies
outside [-90, 90]. -/
def outOfRangeRow : List String :=
  ["北海道", "札幌市", "北1条", "", "", "", "", "", "", "95", "139.0"]

def tokyoRecord : LocationRecord :=
  { Prefecture := "東京都", Municipality := "千代田区", Address1 := "丸の内",
    Address2 := "", BlockLot := "",
    Lat := Rat.divInt 35681236 1000000, Lon := Rat.divInt 139767125 1000000 }

def osakaRecord : LocationRecord :=
  { Prefecture := "大阪府", Municipality := "大阪市", Address1 := "梅田",
    Address2 := "", BlockLot := "",
    Lat := Rat.divInt 347 10, Lon := Rat.divInt 1355 10 }

def outOfRangeRecord : LocationRecord :=
  { Prefecture := "北海道", Municipality := "札幌市", Address1 := "北1条",
    Address2 := "", BlockLot := "", Lat := 95, Lon := 139 }

/-- Demo directory contents: a good file, a malformed file, a second good
file, a file with an out-of-range latitude; every other path holds a
header-only file. -/
def demoFs : String → List (List String) := fun p =>
  if p = "a.csv" then [csvHeader, tokyoRow]
  else if p = "bad.csv" then [csvHeader, shortRow]
  else if p = "c.csv" then [csvHeader, osakaRow]
  else if p = "range.csv" then [csvHeader, outOfRangeRow]
  else [csvHeader]

/-- A run environment in which every store round trip succeeds. -/
def reliableEnv : IngestEnv :=
  { fs := demoFs, checkFails := fun _ => false,
    insertFails := fun _ => false, markFails := fun _ => false }

/-- Same file system, but every ledger write fails. -/
def markFailEnv : IngestEnv :=
  { fs := demoFs, checkFails := fun _ => false,
    insertFails := fun _ => false, markFails := fun _ => true }

def tokyoLocation : Location :=
  { ID := 1, Prefecture := "東京都", Municipality := "千代田区", Address1 := "丸の内",
    Address2 := "", BlockLot := "", Latitude := Rat.divInt 35681236 1000000,
    Longitude := Rat.divInt 139767125 1000000 }

/-! ## Helper lemmas: the ledger -/

lemma isFileProcessed_iff {l : Ledger} {f : String} :
    isFileProcessed l f = true ↔ ∃ e ∈ l, e.1 = f := by
  simp [isFileProcessed]

lemma isFileProcessed_mark_mono {l : Ledger} {p f : String} {c : Nat}
    (h : isFileProcessed l f = true) :
    isFileProcessed (markFileProcessed l p c) f = true := by
  unfold markFileProcessed
  split_ifs with hp
  · exact h
  · rw [isFileProcessed_iff] at h ⊢
    obtain ⟨e, he, hef⟩ := h
    exact ⟨e, List.mem_append_left _ he, hef⟩

lemma isFileProcessed_mark_self (l : Ledger) (p : String) (c : Nat) :
    isFileProcessed (markFileProcessed l p c) p = true := by
  unfold markFileProcessed
  split_ifs with hp
  · exact hp
  · rw [isFileProcessed_iff]
    exact ⟨(p, c), List.mem_append_right _ (List.mem_singleton.2 rfl), rfl⟩

/-! ## Helper lemmas: one step of the directory loop -/

lemma processFile_skip {env : IngestEnv} {acc : DirState × ImportRun} {filePath : String}
    (hc : env.checkFails filePath = false)
    (hp : isFileProcessed acc.1.ledger filePath = true) :
    processFile env acc filePath = acc := by
  simp [processFile, hc, hp]

lemma processFile_parseError {env : IngestEnv} {acc : DirState × ImportRun}
    {filePath : String} {e : ParseError}
    (hc : env.checkFails filePath = false)
    (hnp : isFileProcessed acc.1.ledger filePath = false)
    (he : parseCSV (env.fs filePath) = .error e) :
    processFile env acc filePath =
      (acc.1, { acc.2 with failedFiles := acc.2.failedFiles + 1 }) := by
  simp [processFile, hc, hnp, he]

lemma processFile_insertError {env : IngestEnv} {acc : DirState × ImportRun}
    {filePath : String} {records : List LocationRecord}
    (hc : env.checkFails filePath = false)
    (hnp : isFileProcessed acc.1.ledger filePath = false)
    (hok : parseCSV (env.fs filePath) = .ok records)
    (hi : env.insertFails filePath = true) :
    processFile env acc filePath =
      (acc.1, { acc.2 with failedFiles := acc.2.failedFiles + 1 }) := by
  simp [processFile, hc, hnp, hok, hi]

lemma processFile_success {env : IngestEnv} {acc : DirState × ImportRun}
    {filePath : String} {records : List LocationRecord}
    (hc : env.checkFails filePath = false)
    (hnp : isFileProcessed acc.1.ledger filePath = false)
    (hok : parseCSV (env.fs filePath) = .ok records)
    (hi : env.insertFails filePath = false) :
    processFile env acc filePath =
      ({ locations := acc.1.locations ++ records,
         ledger := if env.markFails filePath then acc.1.ledger
                   else markFileProcessed acc.1.ledger filePath records.length },
       { acc.2 with totalRecords := acc.2.totalRecords + records.length,
                    processedFiles := acc.2.processedFiles + 1 }) := by
  simp [processFile, insertRecords, hc, hnp, hok, hi]

lemma processFile_ledger_mono {env : IngestEnv} {acc : DirState × ImportRun}
    {p f : String} (h : isFileProcessed acc.1.ledger f = true) :
    isFileProcessed (processFile env acc p).1.ledger f = true := by
  cases hc : env.checkFails p with
  | true => simpa [processFile, hc] using h
  | false =>
    cases hip : isFileProcessed acc.1.ledger p with
    | true => simpa [processFile, hc, hip] using h
    | false =>
      cases hcsv : parseCSV (env.fs p) with
      | error e => simpa [processFile, hc, hip, hcsv] using h
      | ok records =>
        cases hi : env.insertFails p with
        | true => simpa [processFile, hc, hip, hcsv, hi] using h
        | false =>
          rw [processFile_success hc hip hcsv hi]
          by_cases hm : env.markFails p = true
          · simpa [hm] using h
          · simp only [Bool.not_eq_true] at hm
            simp [hm]
            exact isFileProcessed_mark_mono h

/-! ## Helper lemmas: the whole directory loop -/

lemma runDirectory_ledger_mono (env : IngestEnv) (files : List String) :
    ∀ (acc : DirState × ImportRun) (f : String),
      isFileProcessed acc.1.ledger f = true →
      isFileProcessed (files.foldl (processFile env) acc).1.ledger f = true := by
  induction files with
  | nil => intro acc f h; simpa using h
  | cons p rest ih =>
    intro acc f h
    rw [List.foldl_cons]
    exact ih (processFile env acc p) f (processFile_ledger_mono h)

lemma runDirectory_covers (env : IngestEnv) (files : List String) :
    ∀ (acc : DirState × ImportRun) (f : String), f ∈ files →
      env.checkFails f = false → env.insertFails f = false → env.markFails f = false →
      isFileProcessed (files.foldl (processFile env) acc).1.ledger f = true ∨
        ∃ e, parseCSV (env.fs f) = .error e := by
  induction files with
  | nil => intro acc f hf; cases hf
  | cons p rest ih =>
    intro acc f hf hc hi hm
    rw [List.foldl_cons]
    rcases List.mem_cons.1 hf with rfl | hf2
    · cases hip : isFileProcessed acc.1.ledger f with
      | true =>
        left
        exact runDirectory_ledger_mono env rest _ f (processFile_ledger_mono hip)
      | false =>
        cases hcsv : parseCSV (env.fs f) with
        | error e => exact Or.inr ⟨e, rfl⟩
        | ok records =>
          left
          apply runDirectory_ledger_mono
          rw [processFile_success hc hip hcsv hi]
          simpa [hm] using isFileProcessed_mark_self acc.1.ledger f records.length
    · exact ih (processFile env acc p) f hf2 hc hi hm

lemma runDirectory_noop (env : IngestEnv) (files : List String) :
    ∀ (st : DirState) (stats : ImportRun),
      (∀ f ∈ files, env.checkFails f = false ∧
          (isFileProcessed st.ledger f = true ∨ ∃ e, parseCSV (env.fs f) = .error e)) →
      (files.foldl (processFile env) (st, stats)).1 = st ∧
      (files.foldl (processFile env) (st, stats)).2.processedFiles = stats.processedFiles ∧
      (files.foldl (processFile env) (st, stats)).2.totalRecords = stats.totalRecords := by
  induction files with
  | nil => intro st stats _; exact ⟨rfl, rfl, rfl⟩
  | cons p rest ih =>
    intro st stats h
    obtain ⟨hc, hpp⟩ := h p (List.mem_cons_self p rest)
    have htail := fun f hf => h f (List.mem_cons_of_mem p hf)
    rw [List.foldl_cons]
    cases hip : isFileProcessed st.ledger p with
    | true =>
      rw [processFile_skip hc hip]
      exact ih st stats htail
    | false =>
      rcases hpp with hp2 | ⟨e, he⟩
      · rw [hip] at hp2; cases hp2
      · rw [processFile_parseError hc hip he]
        exact ih st _ htail

/-! ## Helper lemmas: the parser -/

lemma parseRows_ok_all {data : List (List String)} {recs : List LocationRecord}
    (h : parseRows data = .ok recs) :
    ∀ row ∈ data, ∃ r, parseRow row = .ok r := by
  induction data generalizing recs with
  | nil => intro row hrow; cases hrow
  | cons row0 rest ih =>
    intro row hrow
    simp only [parseRows] at h
    cases hp : parseRow row0 with
    | error e => rw [hp] at h; cases h
    | ok r0 =>
      rw [hp] at h
      cases hrest : parseRows rest with
      | error e => rw [hrest] at h; cases h
      | ok rs =>
        rw [hrest] at h
        rcases List.mem_cons.1 hrow with rfl | hrow2
        · exact ⟨r0, hp⟩
        · exact ih hrest row hrow2

lemma parseRows_ok_mem {data : List (List String)} {recs : List LocationRecord}
    (h : parseRows data = .ok recs) :
    ∀ r ∈ recs, ∃ row ∈ data, parseRow row = .ok r := by
  induction data generalizing recs with
  | nil =>
    simp only [parseRows] at h
    cases h
    intro r hr; cases hr
  | cons row0 rest ih =>
    intro r hr
    simp only [parseRows] at h
    cases hp : parseRow row0 with
    | error e => rw [hp] at h; cases h
    | ok r0 =>
      rw [hp] at h
      cases hrest : parseRows rest with
      | error e => rw [hrest] at h; cases h
      | ok rs =>
        rw [hrest] at h
        cases h
        rcases List.mem_cons.1 hr with rfl | hr2
        · exact ⟨row0, List.mem_cons_self row0 rest, hp⟩
        · obtain ⟨row, hrow, hpr⟩ := ih hrest r hr2
          exact ⟨row, List.mem_cons_of_mem _ hrow, hpr⟩

lemma parseRows_error_of_row {data : List (List String)} {row : List String}
    (hrow : row ∈ data) (hbad : ∀ r, parseRow row ≠ .ok r) :
    ∃ e, parseRows data = .error e := by
  cases h : parseRows data with
  | error e => exact ⟨e, rfl⟩
  | ok recs =>
    obtain ⟨r, hr⟩ := parseRows_ok_all h row hrow
    exact absurd hr (hbad r)

lemma parseRow_short {row : List String} (h : row.length < 11) :
    parseRow row = .error (.invalidRecordLength row.length) := by
  simp [parseRow, h]

lemma parseRow_not_ok_of_lat {row : List String}
    (h : parseFloat (row.getD 9 "") = none) : ∀ r, parseRow row ≠ .ok r := by
  intro r
  by_cases hl : row.length < 11
  · rw [parseRow_short hl]; simp
  · unfold parseRow
    rw [if_neg hl, h]
    simp

lemma parseRow_not_ok_of_lon {row : List String}
    (h : parseFloat (row.getD 10 "") = none) : ∀ r, parseRow row ≠ .ok r := by
  intro r
  by_cases hl : row.length < 11
  · rw [parseRow_short hl]; simp
  · unfold parseRow
    rw [if_neg hl]
    cases h9 : parseFloat (row.getD 9 "") with
    | none => simp
    | some lat => rw [h]; simp

lemma parseRow_ok_fields {row : List String} {r : LocationRecord}
    (h : parseRow row = .ok r) :
    11 ≤ row.length ∧ r.Prefecture = row.getD 0 "" ∧ r.Municipality = row.getD 1 "" ∧
    r.Address1 = row.getD 2 "" ∧ r.Address2 = row.getD 3 "" ∧ r.BlockLot = row.getD 4 "" ∧
    parseFloat (row.getD 9 "") = some r.Lat ∧ parseFloat (row.getD 10 "") = some r.Lon := by
  by_cases hl : row.length < 11
  · rw [parseRow_short hl] at h; cases h
  · unfold parseRow at h
    rw [if_neg hl] at h
    cases h9 : parseFloat (row.getD 9 "") with
    | none => rw [h9] at h; cases h
    | some lat =>
      rw [h9] at h
      cases h10 : parseFloat (row.getD 10 "") with
      | none => rw [h10] at h; cases h
      | some lon =>
        rw [h10] at h
        cases h
        exact ⟨by omega, rfl, rfl, rfl, rfl, rfl, rfl, rfl⟩

/-! ## Helper lemmas: single-file mode -/

lemma runSingleFile_parseError {env : IngestEnv} (st : DirState) {filePath : String}
    {e : ParseError} (he : parseCSV (env.fs filePath) = .error e) :
    runSingleFile env st filePath = (st, 1) := by
  unfold runSingleFile
  rw [he]

lemma runSingleFile_insertError {env : IngestEnv} (st : DirState) {filePath : String}
    {records : List LocationRecord}
    (hok : parseCSV (env.fs filePath) = .ok records)
    (hi : env.insertFails filePath = true) :
    runSingleFile env st filePath = (st, 1) := by
  unfold runSingleFile
  rw [hok]
  simp [hi]

lemma runSingleFile_ok {env : IngestEnv} (st : DirState) {filePath : String}
    {records : List LocationRecord}
    (hok : parseCSV (env.fs filePath) = .ok records)
    (hins : env.insertFails filePath = false) :
    runSingleFile env st filePath =
      ({ st with locations := st.locations ++ records },
       if verifyImport (st.locations ++ records) records.length then 0 else 1) := by
  unfold runSingleFile
  rw [hok]
  simp only [hins, Bool.false_eq_true, if_false, insertRecords]
  split_ifs with hv <;> rfl

lemma runSingleFile_ledger (env : IngestEnv) (st : DirState) (filePath : String) :
    (runSingleFile env st filePath).1.ledger = st.ledger := by
  cases hcsv : parseCSV (env.fs filePath) with
  | error e => rw [runSingleFile_parseError st hcsv]
  | ok records =>
    cases hi : env.insertFails filePath with
    | true => rw [runSingleFile_insertError st hcsv hi]
    | false => rw [runSingleFile_ok st hcsv hi]

lemma verifyImport_iff (locations : List LocationRecord) (expected : Nat) :
    verifyImport locations expected = true ↔
      (expected ≤ locations.length ∧ locations.length ≠ 0) := by
  unfold verifyImport
  by_cases h1 : locations.length < expected
  · rw [if_pos h1]
    exact ⟨fun hc => by simp at hc, fun hc => absurd hc.1 (by omega)⟩
  · rw [if_neg h1]
    by_cases h2 : locations.length = 0
    · rw [if_pos h2]
      exact ⟨fun hc => by simp at hc, fun hc => absurd h2 hc.2⟩
    · rw [if_neg h2]
      exact ⟨fun _ => ⟨by omega, h2⟩, fun _ => rfl⟩

/-! ## The claims -/

/-- C1: Directory-mode ingestion is idempotent: a discovered file that
already has a ledger entry is skipped without touching the store state or
any of the three counters; and over a reliable store, re-running the whole
directory loop over the same file set leaves the store (locations and
ledger) unchanged and reports zero newly processed files and zero new
records. -/
theorem directory_ingestion_idempotent (env : IngestEnv) (st stRun : DirState)
    (stats : ImportRun) (filePath : String) (files : List String)
    (hcheck : env.checkFails filePath = false)
    (hproc : isFileProcessed stRun.ledger filePath = true)
    (hrel : ∀ f ∈ files, env.checkFails f = false ∧ env.insertFails f = false ∧
      env.markFails f = false) :
    processFile env (stRun, stats) filePath = (stRun, stats) ∧
    (runDirectory env (runDirectory env st files).1 files).1 =
      (runDirectory env st files).1 ∧
    (runDirectory env (runDirectory env st files).1 files).2.processedFiles = 0 ∧
    (runDirectory env (runDirectory env st files).1 files).2.totalRecords = 0 := by
  refine ⟨processFile_skip hcheck hproc, ?_⟩
  have hcov : ∀ f ∈ files, env.checkFails f = false ∧
      (isFileProcessed (runDirectory env st files).1.ledger f = true ∨
        ∃ e, parseCSV (env.fs f) = .error e) := by
    intro f hf
    obtain ⟨hc, hi, hm⟩ := hrel f hf
    exact ⟨hc, runDirectory_covers env files (st, ⟨0, 0, 0⟩) f hf hc hi hm⟩
  exact runDirectory_noop env files (runDirectory env st files).1 ⟨0, 0, 0⟩ hcov

def wProcessedState : DirState := { locations := [], ledger := [("done.csv", 1)] }

def wFiles : List String := ["a.csv", "bad.csv"]

/-- Witness for C1 at a concrete reliable environment: `done.csv` already
has a ledger entry and is skipped unchanged; running the two-file set a
second time changes nothing and reports zero processed, zero records. -/
theorem directory_ingestion_idempotent_witness :
    (reliableEnv.checkFails "done.csv" = false) ∧
    (isFileProcessed wProcessedState.ledger "done.csv" = true) ∧
    (∀ f ∈ wFiles, reliableEnv.checkFails f = false ∧ reliableEnv.insertFails f = false ∧
      reliableEnv.markFails f = false) ∧
    (processFile reliableEnv (wProcessedState, ⟨0, 0, 0⟩) "done.csv" =
       (wProcessedState, ⟨0, 0, 0⟩) ∧
     (runDirectory reliableEnv (runDirectory reliableEnv ⟨[], []⟩ wFiles).1 wFiles).1 =
       (runDirectory reliableEnv ⟨[], []⟩ wFiles).1 ∧
     (runDirectory reliableEnv (runDirectory reliableEnv ⟨[], []⟩ wFiles).1 wFiles).2.processedFiles = 0 ∧
     (runDirectory reliableEnv (runDirectory reliableEnv ⟨[], []⟩ wFiles).1 wFiles).2.totalRecords = 0) :=
  ⟨by decide, by decide, by decide,
   directory_ingestion_idempotent reliableEnv ⟨[], []⟩ wProcessedState ⟨0, 0, 0⟩ "done.csv"
     wFiles (by decide) (by decide) (by decide)⟩

/-- C2: Per-file failure isolation in directory mode: a file whose parse
or bulk insert fails only increments the failed-file counter — store
state, ledger and the other counters are untouched — and the loop goes on;
concretely, a directory with one malformed file between two well-formed
ones completes with 2 files processed, 1 failed, both good files' records
inserted, and exit code 0. -/
theorem per_file_failure_isolated (env : IngestEnv) (st : DirState) (stats : ImportRun)
    (filePath : String)
    (hcheck : env.checkFails filePath = false)
    (hnew : isFileProcessed st.ledger filePath = false)
    (hfail : (∃ e, parseCSV (env.fs filePath) = .error e) ∨ env.insertFails filePath = true) :
    processFile env (st, stats) filePath =
      (st, { stats with failedFiles := stats.failedFiles + 1 }) ∧
    runDirectoryMode reliableEnv ⟨[], []⟩ ["a.csv", "bad.csv", "c.csv"] =
      ((⟨[tokyoRecord, osakaRecord], [("a.csv", 1), ("c.csv", 1)]⟩, ⟨2, 2, 1⟩), 0) := by
  constructor
  · rcases hfail with ⟨e, he⟩ | hi
    · exact processFile_parseError hcheck hnew he
    · cases hcsv : parseCSV (env.fs filePath) with
      | error e => exact processFile_parseError hcheck hnew hcsv
      | ok records => exact processFile_insertError hcheck hnew hcsv hi
  · decide

/-- Witness for C2: the malformed `bad.csv` (3 columns) in the demo
directory fails its parse and is counted failed without any other
change. -/
theorem per_file_failure_isolated_witness :
    (reliableEnv.checkFails "bad.csv" = false) ∧
    (isFileProcessed (⟨[], []⟩ : DirState).ledger "bad.csv" = false) ∧
    (∃ e, parseCSV (reliableEnv.fs "bad.csv") = .error e) ∧
    (processFile reliableEnv (⟨[], []⟩, ⟨0, 0, 0⟩) "bad.csv" = (⟨[], []⟩, ⟨0, 0, 1⟩) ∧
     runDirectoryMode reliableEnv ⟨[], []⟩ ["a.csv", "bad.csv", "c.csv"] =
       ((⟨[tokyoRecord, osakaRecord], [("a.csv", 1), ("c.csv", 1)]⟩, ⟨2, 2, 1⟩), 0)) :=
  ⟨by decide, by decide, ⟨.invalidRecordLength 3, by decide⟩,
   per_file_failure_isolated reliableEnv ⟨[], []⟩ ⟨0, 0, 0⟩ "bad.csv" (by decide) (by decide)
     (Or.inl ⟨.invalidRecordLength 3, by decide⟩)⟩

/-- C6: Asymmetric ledger policy: when the bulk insert succeeds but the
ledger write fails, the file is not counted failed — the records stay
inserted, the ledger is unchanged, the processed-file counter and the
total-record counter advance, and the failed-file counter does not. -/
theorem ledger_write_failure_not_counted (env : IngestEnv) (st : DirState)
    (stats : ImportRun) (filePath : String) (records : List LocationRecord)
    (hcheck : env.checkFails filePath = false)
    (hnew : isFileProcessed st.ledger filePath = false)
    (hok : parseCSV (env.fs filePath) = .ok records)
    (hins : env.insertFails filePath = false)
    (hmark : env.markFails filePath = true) :
    processFile env (st, stats) filePath =
      ({ locations := st.locations ++ records, ledger := st.ledger },
       { totalRecords := stats.totalRecords + records.length,
         processedFiles := stats.processedFiles + 1,
         failedFiles := stats.failedFiles }) := by
  rw [processFile_success hcheck hnew hok hins]
  simp [hmark]

/-- Witness for C6: with every ledger write failing, processing `a.csv`
still inserts its record and counts it processed, not failed. -/
theorem ledger_write_failure_not_counted_witness :
    (markFailEnv.checkFails "a.csv" = false) ∧
    (isFileProcessed (⟨[], []⟩ : DirState).ledger "a.csv" = false) ∧
    (parseCSV (markFailEnv.fs "a.csv") = .ok [tokyoRecord]) ∧
    (markFailEnv.insertFails "a.csv" = false) ∧
    (markFailEnv.markFails "a.csv" = true) ∧
    processFile markFailEnv (⟨[], []⟩, ⟨0, 0, 0⟩) "a.csv" = (⟨[tokyoRecord], []⟩, ⟨1, 1, 0⟩) :=
  ⟨by decide, by decide, by decide, by decide, by decide,
   ledger_write_failure_not_counted markFailEnv ⟨[], []⟩ ⟨0, 0, 0⟩ "a.csv" [tokyoRecord]
     (by decide) (by decide) (by decide) (by decide) (by decide)⟩

/-- C8 (amended): Single-file mode never consults the processed-file
ledger — the run leaves the ledger unchanged and its store result and exit
code are invariant under any ledger contents, so ingestion is always
attempted even for a file the ledger lists — and after a successful
insert the post-run verification succeeds iff the store's total row count
is at least the parsed record count AND the store is nonempty (the
sample-geometry probe of `verifyImport` must fetch one row). -/
theorem single_file_mode_contract (env : IngestEnv) (st : DirState) (L : Ledger)
    (filePath : String) (records : List LocationRecord) :
    (runSingleFile env st filePath).1.ledger = st.ledger ∧
    ((runSingleFile env { st with ledger := L } filePath).1.locations =
       (runSingleFile env st filePath).1.locations ∧
     (runSingleFile env { st with ledger := L } filePath).2 =
       (runSingleFile env st filePath).2) ∧
    (parseCSV (env.fs filePath) = .ok records → env.insertFails filePath = false →
      (runSingleFile env st filePath).1.locations = st.locations ++ records ∧
      ((runSingleFile env st filePath).2 = 0 ↔
        (records.length ≤ st.locations.length + records.length ∧
         st.locations.length + records.length ≠ 0))) := by
  refine ⟨runSingleFile_ledger env st filePath, ?_, ?_⟩
  · cases hcsv : parseCSV (env.fs filePath) with
    | error e =>
      rw [runSingleFile_parseError { st with ledger := L } hcsv,
          runSingleFile_parseError st hcsv]
      exact ⟨rfl, rfl⟩
    | ok recs =>
      cases hi : env.insertFails filePath with
      | true =>
        rw [runSingleFile_insertError { st with ledger := L } hcsv hi,
            runSingleFile_insertError st hcsv hi]
        exact ⟨rfl, rfl⟩
      | false =>
        rw [runSingleFile_ok { st with ledger := L } hcsv hi,
            runSingleFile_ok st hcsv hi]
        exact ⟨rfl, rfl⟩
  · intro hok hins
    rw [runSingleFile_ok st hok hins]
    refine ⟨rfl, ?_⟩
    have hv := verifyImport_iff (st.locations ++ records) records.length
    rw [List.length_append] at hv
    by_cases hvb : verifyImport (st.locations ++ records) records.length = true
    · rw [if_pos hvb]
      exact ⟨fun _ => hv.1 hvb, fun _ => rfl⟩
    · rw [if_neg hvb]
      exact ⟨fun hc => absurd hc Nat.one_ne_zero, fun hc => absurd (hv.2 hc) hvb⟩

/-- Witness for C8: importing `a.csv` while the ledger already lists it —
single-file mode ignores the ledger, inserts the record anyway, leaves the
ledger entry untouched, and exits 0. -/
theorem single_file_mode_contract_witness :
    (parseCSV (reliableEnv.fs "a.csv") = .ok [tokyoRecord]) ∧
    (reliableEnv.insertFails "a.csv" = false) ∧
    ((runSingleFile reliableEnv ⟨[], [("a.csv", 9)]⟩ "a.csv").1.ledger = [("a.csv", 9)] ∧
     (runSingleFile reliableEnv ⟨[], [("a.csv", 9)]⟩ "a.csv").1.locations = [tokyoRecord] ∧
     (runSingleFile reliableEnv ⟨[], [("a.csv", 9)]⟩ "a.csv").2 = 0) := by
  have h := single_file_mode_contract reliableEnv ⟨[], [("a.csv", 9)]⟩ [] "a.csv" [tokyoRecord]
  have h3 := h.2.2 (by decide) (by decide)
  exact ⟨by decide, by decide, h.1, by simpa using h3.1, h3.2.mpr (by decide)⟩

/-- C8 counterexample: a header-only file imported into an empty store
parses to zero records, the insert succeeds, and the final row count (0)
is at least the parsed count (0) — yet the run exits 1, because the
sample-geometry probe of `verifyImport` finds no row to scan.  So the
verification does NOT succeed if-and-only-if the row count is at least
the parsed count, as the claim states. -/
theorem single_file_verification_not_count_iff :
    parseCSV (reliableEnv.fs "empty.csv") = .ok [] ∧
    (runSingleFile reliableEnv ⟨[], []⟩ "empty.csv").1.locations.length = 0 ∧
    (runSingleFile reliableEnv ⟨[], []⟩ "empty.csv").2 = 1 :=
  ⟨by decide, by decide, by decide⟩

/-- C9: A successful single-file run writes no ledger entry: the ledger is
unchanged and still does not list the file, so a subsequent directory run
over that file re-parses and re-inserts its records (duplicating them in
the store) and counts it processed again; a second single-file run
duplicates them as well. -/
theorem single_file_run_not_ledgered (env : IngestEnv) (st : DirState)
    (filePath : String) (records : List LocationRecord)
    (hok : parseCSV (env.fs filePath) = .ok records)
    (hins : env.insertFails filePath = false)
    (hcheck : env.checkFails filePath = false)
    (hnew : isFileProcessed st.ledger filePath = false) :
    (runSingleFile env st filePath).1.ledger = st.ledger ∧
    isFileProcessed (runSingleFile env st filePath).1.ledger filePath = false ∧
    (runDirectory env (runSingleFile env st filePath).1 [filePath]).1.locations =
      st.locations ++ records ++ records ∧
    (runDirectory env (runSingleFile env st filePath).1 [filePath]).2.processedFiles = 1 ∧
    (runSingleFile env (runSingleFile env st filePath).1 filePath).1.locations =
      st.locations ++ records ++ records := by
  have h1 : (runSingleFile env st filePath).1 =
      { st with locations := st.locations ++ records } := by
    rw [runSingleFile_ok st hok hins]
  refine ⟨by rw [h1], by rw [h1]; exact hnew, ?_, ?_, ?_⟩
  · rw [h1]
    show (processFile env ({ st with locations := st.locations ++ records }, ⟨0, 0, 0⟩)
      filePath).1.locations = st.locations ++ records ++ records
    rw [processFile_success hcheck hnew hok hins]
  · rw [h1]
    show (processFile env ({ st with locations := st.locations ++ records }, ⟨0, 0, 0⟩)
      filePath).2.processedFiles = 1
    rw [processFile_success hcheck hnew hok hins]
  · rw [h1, runSingleFile_ok { st with locations := st.locations ++ records } hok hins]

/-- Witness for C9: after a single-file import of `a.csv` into an empty
store, a directory run over the same file inserts the record a second
time. -/
theorem single_file_run_not_ledgered_witness :
    (parseCSV (reliableEnv.fs "a.csv") = .ok [tokyoRecord]) ∧
    (reliableEnv.insertFails "a.csv" = false) ∧
    (reliableEnv.checkFails "a.csv" = false) ∧
    (isFileProcessed (⟨[], []⟩ : DirState).ledger "a.csv" = false) ∧
    ((runSingleFile reliableEnv ⟨[], []⟩ "a.csv").1.ledger = [] ∧
     isFileProcessed (runSingleFile reliableEnv ⟨[], []⟩ "a.csv").1.ledger "a.csv" = false ∧
     (runDirectory reliableEnv (runSingleFile reliableEnv ⟨[], []⟩ "a.csv").1 ["a.csv"]).1.locations =
       [] ++ [tokyoRecord] ++ [tokyoRecord] ∧
     (runDirectory reliableEnv (runSingleFile reliableEnv ⟨[], []⟩ "a.csv").1 ["a.csv"]).2.processedFiles = 1 ∧
     (runSingleFile reliableEnv (runSingleFile reliableEnv ⟨[], []⟩ "a.csv").1 "a.csv").1.locations =
       [] ++ [tokyoRecord] ++ [tokyoRecord]) :=
  ⟨by decide, by decide, by decide, by decide,
   single_file_run_not_ledgered reliableEnv ⟨[], []⟩ "a.csv" [tokyoRecord]
     (by decide) (by decide) (by decide) (by decide)⟩

/-! ## Helper lemmas: services and handlers -/

lemma geocode_empty (repo : String → Except RepoError (List Location)) :
    GeoCodeService.geocode repo "" = .error .emptyAddress := by
  unfold GeoCodeService.geocode
  rw [if_pos rfl]

lemma geocode_forwards {repo : String → Except RepoError (List Location)}
    {address : String} (h : address ≠ "") :
    GeoCodeService.geocode repo address =
      match repo address with
      | .error e => .error (.searchFailed e)
      | .ok locations => .ok locations := by
  unfold GeoCodeService.geocode
  rw [if_neg h]

lemma reverseService_invalidLat {repo : ℚ → ℚ → Option Location × Option RepoError}
    {lat lon : ℚ} (h : lat < -90 ∨ lat > 90) :
    ReverseGeoCodeService.reverseGeocode repo lat lon =
      (none, some (.invalidLatitude lat)) := by
  unfold ReverseGeoCodeService.reverseGeocode
  rw [if_pos h]

lemma reverseService_invalidLon {repo : ℚ → ℚ → Option Location × Option RepoError}
    {lat lon : ℚ} (hlat : ¬(lat < -90 ∨ lat > 90)) (h : lon < -180 ∨ lon > 180) :
    ReverseGeoCodeService.reverseGeocode repo lat lon =
      (none, some (.invalidLongitude lon)) := by
  unfold ReverseGeoCodeService.reverseGeocode
  rw [if_neg hlat, if_pos h]

lemma reverseService_inRange {repo : ℚ → ℚ → Option Location × Option RepoError}
    {lat lon : ℚ} (hlat : ¬(lat < -90 ∨ lat > 90)) (hlon : ¬(lon < -180 ∨ lon > 180)) :
    ReverseGeoCodeService.reverseGeocode repo lat lon =
      match repo lat lon with
      | (_, some e) => (none, some (.findFailed e))
      | (l, none) => (l, none) := by
  unfold ReverseGeoCodeService.reverseGeocode
  rw [if_neg hlat, if_neg hlon]

lemma reverseHandler_missing {svc : ℚ → ℚ → Option Location × Option ReverseSvcError}
    {latStr lonStr : String} (h : latStr = "" ∨ lonStr = "") :
    ReverseGeocodeHandler.reverseGeocode svc latStr lonStr =
      .badRequest "missing required query parameters lat and lon" := by
  unfold ReverseGeocodeHandler.reverseGeocode
  rw [if_pos h]

lemma reverseHandler_badLat {svc : ℚ → ℚ → Option Location × Option ReverseSvcError}
    {latStr lonStr : String} (h1 : ¬(latStr = "" ∨ lonStr = ""))
    (h : parseFloat latStr = none) :
    ReverseGeocodeHandler.reverseGeocode svc latStr lonStr =
      .badRequest "invalid latitude format" := by
  unfold ReverseGeocodeHandler.reverseGeocode
  rw [if_neg h1, h]

lemma reverseHandler_badLon {svc : ℚ → ℚ → Option Location × Option ReverseSvcError}
    {latStr lonStr : String} {lat : ℚ} (h1 : ¬(latStr = "" ∨ lonStr = ""))
    (h2 : parseFloat latStr = some lat) (h : parseFloat lonStr = none) :
    ReverseGeocodeHandler.reverseGeocode svc latStr lonStr =
      .badRequest "invalid longitude format" := by
  unfold ReverseGeocodeHandler.reverseGeocode
  rw [if_neg h1, h2, h]

lemma reverseHandler_svc {svc : ℚ → ℚ → Option Location × Option ReverseSvcError}
    {latStr lonStr : String} {lat lon : ℚ} (h1 : ¬(latStr = "" ∨ lonStr = ""))
    (h2 : parseFloat latStr = some lat) (h3 : parseFloat lonStr = some lon) :
    ReverseGeocodeHandler.reverseGeocode svc latStr lonStr =
      match svc lat lon with
      | (_, some _) => .internalError "internal server error"
      | (none, none) => .notFound "no address found near the specified coordinates"
      | (some loc, none) => .okLocation loc := by
  unfold ReverseGeocodeHandler.reverseGeocode
  rw [if_neg h1, h2, h3]

/-- C3 counterexample: the data row of `range.csv` has latitude column
"95", which parses as a decimal number; `parseCSV` accepts it — the
ingestion path has no range check — and the single-file run passes the
record, whose latitude 95 lies outside [-90, 90], to the bulk insert, so
it reaches the store.  This refutes the claim that every record reaching
the store has latitude in [-90, 90]. -/
theorem store_receives_out_of_range_latitude :
    parseCSV (reliableEnv.fs "range.csv") = .ok [outOfRangeRecord] ∧
    (runSingleFile reliableEnv ⟨[], []⟩ "range.csv").1.locations = [outOfRangeRecord] ∧
    outOfRangeRecord.Lat > 90 :=
  ⟨by decide, by decide, by decide⟩

/-- C3 (amended): the batch passed to the bulk insert is exactly the
parser output, and every record in it took its latitude and longitude
from the ParseFloat values of columns 9 and 10 of a data row of its file.
Neither half of the claimed invariant holds on that path: no range check
is performed (the counterexample shows latitude 95 reaching the store),
and Go ParseFloat itself also accepts the non-finite spellings NaN and
Inf with nil error, so finiteness is not guaranteed either - those
spellings have no rational value and lie outside this embedding, which is
why this theorem is stated over files in the decimal fragment that
`parseFloat` models. -/
theorem store_batch_is_parser_output
    (rows : List (List String)) (recs : List LocationRecord) (r : LocationRecord)
    (env : IngestEnv) (st : DirState) (filePath : String) :
    (parseCSV rows = .ok recs → r ∈ recs →
      ∃ row ∈ rows.drop 1, 11 ≤ row.length ∧
        parseFloat (row.getD 9 "") = some r.Lat ∧
        parseFloat (row.getD 10 "") = some r.Lon) ∧
    (parseCSV (env.fs filePath) = .ok recs → env.insertFails filePath = false →
      (runSingleFile env st filePath).1.locations = st.locations ++ recs) := by
  constructor
  · intro hok hr
    cases rows with
    | nil => simp [parseCSV] at hok
    | cons hdr data =>
      simp only [parseCSV] at hok
      obtain ⟨row, hrow, hpr⟩ := parseRows_ok_mem hok r hr
      obtain ⟨hlen, _, _, _, _, _, hlat, hlon⟩ := parseRow_ok_fields hpr
      exact ⟨row, by simpa using hrow, hlen, hlat, hlon⟩
  · intro hok hins
    rw [runSingleFile_ok st hok hins]

/-- Witness for C3 (amended) at the scenario file: its single record
carries coordinates that the parser produced from columns 9 and 10, and
the store receives exactly the parser output. -/
theorem store_batch_is_parser_output_witness :
    (parseCSV [csvHeader, tokyoRow] = .ok [tokyoRecord]) ∧
    (∃ row ∈ [csvHeader, tokyoRow].drop 1, 11 ≤ row.length ∧
       parseFloat (row.getD 9 "") = some tokyoRecord.Lat ∧
       parseFloat (row.getD 10 "") = some tokyoRecord.Lon) ∧
    (runSingleFile reliableEnv ⟨[], []⟩ "a.csv").1.locations = [] ++ [tokyoRecord] :=
  ⟨by decide,
   (store_batch_is_parser_output [csvHeader, tokyoRow] [tokyoRecord]
      tokyoRecord reliableEnv ⟨[], []⟩ "a.csv").1 (by decide) (by decide),
   (store_batch_is_parser_output [csvHeader, tokyoRow] [tokyoRecord]
      tokyoRecord reliableEnv ⟨[], []⟩ "a.csv").2 (by decide) (by decide)⟩

/-- C5: Parser contract: the header row is discarded whatever its content;
a row shorter than 11 columns fails with the short-row error carrying the
row length, and the whole file parse yields an error (no records); an
unparseable latitude or longitude column likewise fails the whole file; a
parsed record takes columns 0-4 as its five address fields and columns 9
and 10 as latitude and longitude; and the spec scenario row parses to
latitude 35.681236 and longitude 139.767125. -/
theorem record_parser_contract (hdr hdr2 row : List String)
    (data : List (List String)) (r : LocationRecord) :
    parseCSV (hdr :: data) = parseCSV (hdr2 :: data) ∧
    (row.length < 11 → parseRow row = .error (.invalidRecordLength row.length)) ∧
    (row ∈ data → row.length < 11 → ∃ e, parseCSV (hdr :: data) = .error e) ∧
    (row ∈ data → parseFloat (row.getD 9 "") = none →
      ∃ e, parseCSV (hdr :: data) = .error e) ∧
    (row ∈ data → parseFloat (row.getD 10 "") = none →
      ∃ e, parseCSV (hdr :: data) = .error e) ∧
    (parseRow row = .ok r →
      r.Prefecture = row.getD 0 "" ∧ r.Municipality = row.getD 1 "" ∧
      r.Address1 = row.getD 2 "" ∧ r.Address2 = row.getD 3 "" ∧ r.BlockLot = row.getD 4 "" ∧
      parseFloat (row.getD 9 "") = some r.Lat ∧ parseFloat (row.getD 10 "") = some r.Lon) ∧
    (parseCSV [csvHeader, tokyoRow] = .ok [tokyoRecord] ∧
     tokyoRecord.Lat = (35.681236 : ℚ) ∧ tokyoRecord.Lon = (139.767125 : ℚ)) := by
  refine ⟨rfl, fun hl => parseRow_short hl, ?_, ?_, ?_,
    fun hok => (parseRow_ok_fields hok).2, ⟨by decide, ?_, ?_⟩⟩
  · intro hrow hl
    exact parseRows_error_of_row hrow
      (fun rr h => by rw [parseRow_short hl] at h; cases h)
  · intro hrow h9
    exact parseRows_error_of_row hrow (parseRow_not_ok_of_lat h9)
  · intro hrow h10
    exact parseRows_error_of_row hrow (parseRow_not_ok_of_lon h10)
  · rw [show tokyoRecord.Lat = Rat.divInt 35681236 1000000 from rfl, Rat.divInt_eq_div]
    norm_num
  · rw [show tokyoRecord.Lon = Rat.divInt 139767125 1000000 from rfl, Rat.divInt_eq_div]
    norm_num

/-- Witness for C5 at the malformed three-column row: its parse error
carries the row length 3, and a file containing it parses to an error. -/
theorem record_parser_contract_witness :
    (shortRow ∈ [shortRow]) ∧ (shortRow.length < 11) ∧
    parseRow shortRow = .error (.invalidRecordLength 3) ∧
    (∃ e, parseCSV (csvHeader :: [shortRow]) = .error e) := by
  have h := record_parser_contract csvHeader csvHeader shortRow [shortRow] tokyoRecord
  exact ⟨by decide, by decide, h.2.1 (by decide), h.2.2.1 (by decide) (by decide)⟩

/-- Unfolding of the wired reverse-geocode stack into handler over
service over repository. -/
lemma reverseGeocodeEndpoint_def (outcome : ℚ → ℚ → RepoOutcome) (latStr lonStr : String) :
    reverseGeocodeEndpoint outcome latStr lonStr =
      ReverseGeocodeHandler.reverseGeocode
        (ReverseGeoCodeService.reverseGeocode
          (fun la lo => FindNearestLocation (outcome la lo))) latStr lonStr := rfl

/-- C4 counterexample: a reverse-geocode request with latitude 95
(syntactically valid, out of range) is answered 500 "internal server
error" by the wired stack — the handler maps the service's range
validation error to 500 — where the claim requires 400. -/
theorem reverse_geocode_out_of_range_is_500 :
    reverseGeocodeEndpoint (fun _ _ => RepoOutcome.found tokyoLocation) "95" "139" =
      .internalError "internal server error" := by decide

/-- C4 (amended): response mapping of the wired reverse-geocode stack:
400 exactly on missing or unparseable parameters; 500 on every service
error — out-of-range coordinates, the repository's no-match (no rows
within the radius) outcome, and store failures alike; 200 with the
location on a found match; the handler's 404 branch is unreachable
through the wired service, which never returns a nil location without an
error. -/
theorem reverse_geocode_endpoint_mapping (outcome : ℚ → ℚ → RepoOutcome)
    (latStr lonStr m : String) (lat lon : ℚ) (loc : Location) :
    ((latStr = "" ∨ lonStr = "") →
      reverseGeocodeEndpoint outcome latStr lonStr =
        .badRequest "missing required query parameters lat and lon") ∧
    (¬(latStr = "" ∨ lonStr = "") → parseFloat latStr = none →
      reverseGeocodeEndpoint outcome latStr lonStr = .badRequest "invalid latitude format") ∧
    (¬(latStr = "" ∨ lonStr = "") → parseFloat latStr = some lat →
      parseFloat lonStr = none →
      reverseGeocodeEndpoint outcome latStr lonStr = .badRequest "invalid longitude format") ∧
    (¬(latStr = "" ∨ lonStr = "") → parseFloat latStr = some lat →
      parseFloat lonStr = some lon →
      ((lat < -90 ∨ lat > 90 ∨ lon < -180 ∨ lon > 180) →
        reverseGeocodeEndpoint outcome latStr lonStr =
          .internalError "internal server error") ∧
      (-90 ≤ lat → lat ≤ 90 → -180 ≤ lon → lon ≤ 180 →
        (outcome lat lon = .noRows →
          reverseGeocodeEndpoint outcome latStr lonStr =
            .internalError "internal server error") ∧
        (outcome lat lon = .storeFailure →
          reverseGeocodeEndpoint outcome latStr lonStr =
            .internalError "internal server error") ∧
        (outcome lat lon = .found loc →
          reverseGeocodeEndpoint outcome latStr lonStr = .okLocation loc))) ∧
    reverseGeocodeEndpoint outcome latStr lonStr ≠ .notFound m := by
  refine ⟨fun h1 => reverseHandler_missing h1,
    fun h1 hla => reverseHandler_badLat h1 hla,
    fun h1 hla hlo => reverseHandler_badLon h1 hla hlo, ?_, ?_⟩
  · intro h1 hla hlo
    constructor
    · intro hout
      rw [reverseGeocodeEndpoint_def, reverseHandler_svc h1 hla hlo]
      by_cases hr1 : lat < -90 ∨ lat > 90
      · rw [reverseService_invalidLat hr1]
      · by_cases hr2 : lon < -180 ∨ lon > 180
        · rw [reverseService_invalidLon hr1 hr2]
        · rcases hout with h | h | h | h
          exacts [absurd (Or.inl h) hr1, absurd (Or.inr h) hr1,
                  absurd (Or.inl h) hr2, absurd (Or.inr h) hr2]
    · intro hb1 hb2 hb3 hb4
      have hr1 : ¬(lat < -90 ∨ lat > 90) := not_or.mpr ⟨not_lt.mpr hb1, not_lt.mpr hb2⟩
      have hr2 : ¬(lon < -180 ∨ lon > 180) := not_or.mpr ⟨not_lt.mpr hb3, not_lt.mpr hb4⟩
      refine ⟨?_, ?_, ?_⟩ <;> intro ho <;>
        rw [reverseGeocodeEndpoint_def, reverseHandler_svc h1 hla hlo,
            reverseService_inRange hr1 hr2, ho] <;> rfl
  · by_cases h1 : latStr = "" ∨ lonStr = ""
    · rw [reverseGeocodeEndpoint_def, reverseHandler_missing h1]
      simp
    · cases hla : parseFloat latStr with
      | none =>
        rw [reverseGeocodeEndpoint_def, reverseHandler_badLat h1 hla]
        simp
      | some la =>
        cases hlo : parseFloat lonStr with
        | none =>
          rw [reverseGeocodeEndpoint_def, reverseHandler_badLon h1 hla hlo]
          simp
        | some lo =>
          rw [reverseGeocodeEndpoint_def, reverseHandler_svc h1 hla hlo]
          by_cases hr1 : la < -90 ∨ la > 90
          · rw [reverseService_invalidLat hr1]; simp
          · by_cases hr2 : lo < -180 ∨ lo > 180
            · rw [reverseService_invalidLon hr1 hr2]; simp
            · rw [reverseService_inRange hr1 hr2]
              cases ho : outcome la lo with
              | noRows => simp [FindNearestLocation]
              | storeFailure => simp [FindNearestLocation]
              | found l => simp [FindNearestLocation]

/-- Witness for C4 (amended): an in-range request over a store that finds
the Tokyo location is answered 200 with that location. -/
theorem reverse_geocode_endpoint_mapping_witness :
    reverseGeocodeEndpoint (fun _ _ => RepoOutcome.found tokyoLocation) "35.5" "139.7" =
      .okLocation tokyoLocation := by
  have h := reverse_geocode_endpoint_mapping (fun _ _ => RepoOutcome.found tokyoLocation)
    "35.5" "139.7" "x" (Rat.divInt 355 10) (Rat.divInt 1397 10) tokyoLocation
  have h4 := h.2.2.2.1 (by decide) (by decide) (by decide)
  exact (h4.2 (by decide) (by decide) (by decide) (by decide)).2.2 (by decide)

/-- C7: Resolution-service input validation: forward geocoding of an
empty address fails before the repository is consulted (the result does
not depend on the repository at all); reverse geocoding with latitude
outside [-90, 90] or, for in-range latitude, longitude outside
[-180, 180] fails likewise without consulting the repository; for valid
input each service forwards to its repository and returns its result
(wrapping a repository error). -/
theorem resolution_service_validation
    (repo repo2 : String → Except RepoError (List Location))
    (rrepo rrepo2 : ℚ → ℚ → Option Location × Option RepoError)
    (address : String) (lat lon : ℚ) (locs : List Location)
    (e : RepoError) (loc : Option Location) :
    (GeoCodeService.geocode repo "" = .error .emptyAddress ∧
     GeoCodeService.geocode repo "" = GeoCodeService.geocode repo2 "") ∧
    (address ≠ "" → repo address = .ok locs →
      GeoCodeService.geocode repo address = .ok locs) ∧
    (address ≠ "" → repo address = .error e →
      GeoCodeService.geocode repo address = .error (.searchFailed e)) ∧
    ((lat < -90 ∨ lat > 90) →
      ReverseGeoCodeService.reverseGeocode rrepo lat lon =
        (none, some (.invalidLatitude lat)) ∧
      ReverseGeoCodeService.reverseGeocode rrepo lat lon =
        ReverseGeoCodeService.reverseGeocode rrepo2 lat lon) ∧
    (-90 ≤ lat → lat ≤ 90 → (lon < -180 ∨ lon > 180) →
      ReverseGeoCodeService.reverseGeocode rrepo lat lon =
        (none, some (.invalidLongitude lon)) ∧
      ReverseGeoCodeService.reverseGeocode rrepo lat lon =
        ReverseGeoCodeService.reverseGeocode rrepo2 lat lon) ∧
    (-90 ≤ lat → lat ≤ 90 → -180 ≤ lon → lon ≤ 180 →
      (rrepo lat lon = (loc, none) →
        ReverseGeoCodeService.reverseGeocode rrepo lat lon = (loc, none)) ∧
      (rrepo lat lon = (loc, some e) →
        ReverseGeoCodeService.reverseGeocode rrepo lat lon =
          (none, some (.findFailed e)))) := by
  refine ⟨⟨geocode_empty repo, by rw [geocode_empty repo, geocode_empty repo2]⟩,
    ?_, ?_, ?_, ?_, ?_⟩
  · intro h hr
    rw [geocode_forwards h, hr]
  · intro h hr
    rw [geocode_forwards h, hr]
  · intro h
    exact ⟨reverseService_invalidLat h,
      by rw [reverseService_invalidLat h, reverseService_invalidLat h]⟩
  · intro hb1 hb2 h
    have hr1 : ¬(lat < -90 ∨ lat > 90) := not_or.mpr ⟨not_lt.mpr hb1, not_lt.mpr hb2⟩
    exact ⟨reverseService_invalidLon hr1 h,
      by rw [reverseService_invalidLon hr1 h, reverseService_invalidLon hr1 h]⟩
  · intro hb1 hb2 hb3 hb4
    have hr1 : ¬(lat < -90 ∨ lat > 90) := not_or.mpr ⟨not_lt.mpr hb1, not_lt.mpr hb2⟩
    have hr2 : ¬(lon < -180 ∨ lon > 180) := not_or.mpr ⟨not_lt.mpr hb3, not_lt.mpr hb4⟩
    constructor
    · intro hr
      rw [reverseService_inRange hr1 hr2, hr]
    · intro hr
      rw [reverseService_inRange hr1 hr2, hr]

/-- Witness for C7: empty address and latitude 95 are rejected by the
services at concrete inputs. -/
theorem resolution_service_validation_witness :
    GeoCodeService.geocode (fun _ => .ok [tokyoLocation]) "" = .error .emptyAddress ∧
    ((95 : ℚ) < -90 ∨ (95 : ℚ) > 90) ∧
    ReverseGeoCodeService.reverseGeocode (fun _ _ => (some tokyoLocation, none)) 95 139 =
      (none, some (.invalidLatitude 95)) := by
  have h := resolution_service_validation (fun _ => .ok [tokyoLocation]) (fun _ => .ok [])
    (fun _ _ => (some tokyoLocation, none)) (fun _ _ => (none, none))
    "東京都" 95 139 [tokyoLocation] .queryFailed (some tokyoLocation)
  exact ⟨h.1.1, by decide, (h.2.2.2.1 (by decide)).1⟩

/-! ## Forward search limit -/

lemma searchLocationsByText_spec (db : List Location)
    (tsMatch : String → Location → Bool) (rank : String → Location → ℚ) (q : String) :
    (SearchLocationsByText db tsMatch rank q).length ≤ 10 ∧
    List.Sorted (fun a b => rank q b ≤ rank q a) (SearchLocationsByText db tsMatch rank q) := by
  constructor
  · unfold SearchLocationsByText
    rw [List.length_take]
    exact min_le_left _ _
  · unfold SearchLocationsByText
    have hs : List.Sorted (fun a b => rank q b ≤ rank q a)
        ((db.filter (tsMatch q)).insertionSort (fun a b => rank q b ≤ rank q a)) := by
      haveI : IsTotal Location (fun a b => rank q b ≤ rank q a) :=
        ⟨fun a b => le_total (rank q b) (rank q a)⟩
      haveI : IsTrans Location (fun a b => rank q b ≤ rank q a) :=
        ⟨fun a b c hab hbc => le_trans hbc hab⟩
      exact List.sorted_insertionSort _ _
    exact List.Pairwise.sublist (List.take_sublist _ _) hs

/-- C10: Forward geocoding returns at most 10 locations per query: the
text search keeps at most 10 rows, ordered by descending rank, so any 200
response of the wired /geocode stack carries at most 10 locations —
sorted by descending rank — regardless of how many rows of the store
match. -/
theorem geocode_returns_at_most_ten (db : List Location)
    (tsMatch : String → Location → Bool) (rank : String → Location → ℚ)
    (q : String) (locs : List Location)
    (h : geocodeEndpoint db tsMatch rank q = .okLocations locs) :
    locs.length ≤ 10 ∧ List.Sorted (fun a b => rank q b ≤ rank q a) locs := by
  unfold geocodeEndpoint GeoCodeHandler.geoCode GeoCodeService.geocode at h
  by_cases hq : q = ""
  · rw [if_pos hq] at h
    cases h
  · rw [if_neg hq, if_neg hq] at h
    cases h
    exact searchLocationsByText_spec db tsMatch rank q

def manyLoc (n : Nat) : Location :=
  { ID := n, Prefecture := "東京都", Municipality := "千代田区", Address1 := "丸の内",
    Address2 := "", BlockLot := "", Latitude := 0, Longitude := 0 }

/-- Twelve matching rows, to exercise the LIMIT. -/
def wideDb : List Location :=
  [manyLoc 1, manyLoc 2, manyLoc 3, manyLoc 4, manyLoc 5, manyLoc 6,
   manyLoc 7, manyLoc 8, manyLoc 9, manyLoc 10, manyLoc 11, manyLoc 12]

def demoTen : List Location :=
  [manyLoc 1, manyLoc 2, manyLoc 3, manyLoc 4, manyLoc 5, manyLoc 6,
   manyLoc 7, manyLoc 8, manyLoc 9, manyLoc 10]

def wRank : String → Location → ℚ := fun _ _ => 0

/-- Witness for C10: a store with 12 matching rows answers the query with
exactly the first 10. -/
theorem geocode_returns_at_most_ten_witness :
    (geocodeEndpoint wideDb (fun _ _ => true) wRank "東京" = .okLocations demoTen) ∧
    (demoTen.length ≤ 10 ∧
     List.Sorted (fun a b => wRank "東京" b ≤ wRank "東京" a) demoTen) :=
  ⟨by decide,
   geocode_returns_at_most_ten wideDb (fun _ _ => true) wRank "東京" demoTen (by decide)⟩
